import Mathlib

/-!
Verification of the authentication orchestration in `auth.py`
(`AuthManager` from the outlook-mcp-client repository).

The Python module is shallowly embedded: content fragments, tool-call
results and the process environment become inductive data; the
side-effecting orchestration `ensure_authenticated` becomes a pure
function that threads an explicit event trace (tool calls, log lines,
process spawns, browser openings, sleeps) and models wall-clock time in
the poll loop as a rational accumulator advanced by each interval sleep
(remote calls are modelled as taking negligible time).
-/

namespace OutlookAuth

/-- A content fragment of a tool response.  `attrObj ty tx` models an
attribute-style object where `ty` is `getattr(c, "type", None)` and
`tx = some s` exactly when the object `hasattr(c, "text")` with value `s`.
`dictObj ty tx` models a `dict` fragment where `ty = c.get("type")` and
`tx = c.get("text")`. -/
inductive Fragment where
  | attrObj (ty : Option String) (tx : Option String)
  | dictObj (ty : Option String) (tx : Option String)
deriving DecidableEq

/-- A tool response: `content` models `getattr(response, "content", None)`. -/
structure ToolResponse where
  content : Option (List Fragment)
deriving DecidableEq

/-- Result of a remote `session.call_tool` invocation: a normal response
or a raised exception carrying its message. -/
inductive CallResult where
  | ok (resp : ToolResponse)
  | exn (msg : String)
deriving DecidableEq

/-- The text value a fragment contributes, `none` when the fragment is
skipped.  Mirrors the two branches of `AuthManager._contents_to_text`:
attribute objects need `type == "text"` and a `text` attribute; dicts need
`get("type") == "text"` and default a missing `"text"` key to `""`. -/
def fragText : Fragment → Option String
  | .attrObj ty tx => if ty = some "text" then tx else none
  | .dictObj ty tx => if ty = some "text" then some (tx.getD "") else none

/-- The `parts` accumulator loop of `_contents_to_text`. -/
def gatherParts : List Fragment → List String → List String
  | [], acc => acc
  | c :: rest, acc =>
    match fragText c with
    | some t => gatherParts rest (acc ++ [t])
    | none => gatherParts rest acc

/-- `AuthManager._contents_to_text`: iterate over `contents or []`,
collect the textual parts, and join them with newlines. -/
def contentsToText (contents : Option (List Fragment)) : String :=
  String.intercalate "\n" (gatherParts (contents.getD []) [])

/-- Python's `needle in haystack` substring test. -/
def pyIn (needle hay : String) : Bool :=
  decide (needle.data <:+: hay.data)

/-- Python's `str.lower()` (ASCII case folding, which is all the
configuration strings use). -/
def pyLower (s : String) : String :=
  String.mk (s.data.map Char.toLower)

/-- The character class `\s` of the URL regular expression
`https?://[^\s]+` (ASCII whitespace; the texts the claims quantify over
are ASCII). -/
def isPySpace (c : Char) : Bool :=
  c = ' ' || c = '\t' || c = '\n' || c = '\r' || c = '\x0b' || c = '\x0c'

/-- Greedy `[^\s]+` body: the maximal leading run of non-whitespace. -/
def takeNonSpace : List Char → List Char
  | [] => []
  | c :: rest => if isPySpace c then [] else c :: takeNonSpace rest

/-- Try to match `https?://[^\s]+` starting exactly at the head of `l`.
`https` is preferred over `http` exactly as the greedy `s?` does; the
`+` requires a non-empty run after the scheme. -/
def matchUrlAt (l : List Char) : Option (List Char) :=
  if "https://".data.isPrefixOf l then
    let run := takeNonSpace (l.drop 8)
    if run = [] then none else some ("https://".data ++ run)
  else if "http://".data.isPrefixOf l then
    let run := takeNonSpace (l.drop 7)
    if run = [] then none else some ("http://".data ++ run)
  else none

/-- `re.search` scan: leftmost position at which the pattern matches. -/
def urlSearchChars : List Char → Option (List Char)
  | [] => none
  | c :: rest =>
    match matchUrlAt (c :: rest) with
    | some u => some u
    | none => urlSearchChars rest

/-- `re.search(r"https?://[^\s]+", text)`, returning `match.group(0)`. -/
def urlSearch (s : String) : Option String :=
  (urlSearchChars s.data).map String.mk

/-- The process environment and the helper's environment are Python
dictionaries, modelled as association lists looked up by first
occurrence. -/
def envLookup : List (String × String) → String → Option String
  | [], _ => none
  | (k', v) :: rest, k => if k == k' then some v else envLookup rest k

/-- Python's `dict.get(k, d)`. -/
def envGetD (env : List (String × String)) (k d : String) : String :=
  (envLookup env k).getD d

/-- Python's `dict.setdefault(k, v)` (result dictionary). -/
def envSetdefault (env : List (String × String)) (k v : String) :
    List (String × String) :=
  if (envLookup env k).isSome then env else env ++ [(k, v)]

/-- A handle to a spawned helper process (`subprocess.Popen` result). -/
structure Proc where
  pid : ℕ
deriving DecidableEq

/-- Observable side effects of a run, in order of occurrence:
remote tool calls, `print` log lines, the helper-process spawn (with the
environment passed to `Popen`), the fixed post-spawn settle sleep, the
`webbrowser.open` attempt, and the poll-loop interval sleeps. -/
inductive Event where
  | callTool (name : String)
  | logLine (s : String)
  | spawnHelper (env : List (String × String))
  | settleSleep
  | openBrowser (url : String)
  | pollSleep (d : ℚ)
deriving DecidableEq

/-- Resolved coordinator configuration (`AuthManager.__init__` fields).
`timeout_seconds` is an `int` in the source; the poll interval is a
`float`, modelled as a rational. -/
structure Config where
  timeout_seconds : ℤ
  poll_interval_seconds : ℚ
  start_auth_server : Bool
  browser_open : Bool
deriving DecidableEq

/-- Python's `int()` on the plain decimal literals the configuration
uses (optional sign followed by digits); other accepted spellings
(whitespace, underscores, bases) do not occur in the claims. -/
def digitsAux : List Char → ℕ → Option ℕ
  | [], acc => some acc
  | c :: rest, acc =>
    if c.isDigit then digitsAux rest (acc * 10 + (c.toNat - 48)) else none

/-- Non-empty all-digit string to a natural number. -/
def digitsToNat? : List Char → Option ℕ
  | [] => none
  | c :: rest => digitsAux (c :: rest) 0

/-- `int(s)` for decimal literals, `none` when `int` would raise. -/
def pyInt? (s : String) : Option ℤ :=
  match s.data with
  | '-' :: rest => (digitsToNat? rest).map (fun n => -(n : ℤ))
  | '+' :: rest => (digitsToNat? rest).map (fun n => (n : ℤ))
  | l => (digitsToNat? l).map (fun n => (n : ℤ))

/-- Split at the first `'.'`: integer part, and the fractional part when
a dot is present. -/
def splitDot : List Char → List Char × Option (List Char)
  | [] => ([], none)
  | c :: rest =>
    if c = '.' then ([], some rest)
    else
      let r := splitDot rest
      (c :: r.1, r.2)

/-- Value of a digit string read as a fraction in `[0, 1)`. -/
def fracVal : List Char → Option ℚ
  | [] => some 0
  | c :: rest =>
    if c.isDigit then (fracVal rest).map (fun q => ((c.toNat - 48 : ℕ) + q) / 10)
    else none

/-- Unsigned decimal (possibly with a dot) to a rational. -/
def decToRat? (l : List Char) : Option ℚ :=
  match splitDot l with
  | (ip, none) => (digitsToNat? ip).map (fun n => (n : ℚ))
  | (ip, some fp) =>
    if ip = [] && fp = [] then none
    else
      match digitsAux ip 0, fracVal fp with
      | some n, some f => some ((n : ℚ) + f)
      | _, _ => none

/-- `float(s)` for decimal literals, `none` when `float` would raise. -/
def pyFloat? (s : String) : Option ℚ :=
  match s.data with
  | '-' :: rest => (decToRat? rest).map (fun q => -q)
  | '+' :: rest => decToRat? rest
  | l => decToRat? l

/-- `AuthManager.__init__`: each option takes the explicit constructor
argument when given, otherwise the environment-derived default
(`AUTH_TIMEOUT_SECONDS` via `int`, default `"180"`;
`AUTH_POLL_INTERVAL_SECONDS` via `float`, default `"2"`;
`START_AUTH_SERVER` and `BROWSER_OPEN` via `.lower() != "false"`,
default `"true"`).  `none` models `int`/`float` raising on an
unparseable environment string. -/
def mkConfig (env : List (String × String)) (timeout_seconds : Option ℤ)
    (poll_interval_seconds : Option ℚ) (start_auth_server : Option Bool)
    (browser_open : Option Bool) : Option Config :=
  let t? := match timeout_seconds with
            | some t => some t
            | none => pyInt? (envGetD env "AUTH_TIMEOUT_SECONDS" "180")
  let p? := match poll_interval_seconds with
            | some p => some p
            | none => pyFloat? (envGetD env "AUTH_POLL_INTERVAL_SECONDS" "2")
  match t?, p? with
  | some t, some p =>
    some ⟨t, p,
      (match start_auth_server with
       | some b => b
       | none => pyLower (envGetD env "START_AUTH_SERVER" "true") != "false"),
      (match browser_open with
       | some b => b
       | none => pyLower (envGetD env "BROWSER_OPEN" "true") != "false")⟩
  | _, _ => none

/-- The ambient world the coordinator interacts with: the inherited
process environment, whether `outlook-auth-server.js` exists in the
configured server directory, and the outcomes the OS would give to a
`Popen` spawn and a `webbrowser.open` attempt. -/
structure World where
  env : List (String × String)
  authServerExists : Bool
  spawnResult : Except String Proc
  browserResult : Except String Unit

/-- The remote session: the `n`-th `"check-auth-status"` call (index 0 is
the initial check, `1, 2, ...` the poll-loop checks) and the single
`"authenticate"` call. -/
structure Session where
  checkAuthStatus : ℕ → CallResult
  authenticate : CallResult

/-- The environment passed to the helper process: a copy of the
inherited environment with `MS_CLIENT_ID` / `MS_CLIENT_SECRET`
`setdefault`-ed from `OUTLOOK_CLIENT_ID` / `OUTLOOK_CLIENT_SECRET`
(empty-string fallback), exactly as `_start_auth_server_if_available`
builds it. -/
def helperEnv (env : List (String × String)) : List (String × String) :=
  let env1 := envSetdefault env "MS_CLIENT_ID" (envGetD env "OUTLOOK_CLIENT_ID" "")
  envSetdefault env1 "MS_CLIENT_SECRET" (envGetD env1 "OUTLOOK_CLIENT_SECRET" "")

/-- `AuthManager._start_auth_server_if_available`: no-op when a handle is
already live or the helper script is absent; otherwise spawn with the
remapped environment (followed by the 0.5 s settle sleep), catching and
logging a spawn failure. Returns the new handle state and the events. -/
def startAuthServerIfAvailable (w : World) (proc : Option Proc) :
    Option Proc × List Event :=
  match proc with
  | some p => (some p, [])
  | none =>
    if w.authServerExists then
      match w.spawnResult with
      | .ok p =>
        (some p, [.logLine "Starting local auth server",
                  .spawnHelper (helperEnv w.env), .settleSleep])
      | .error e =>
        (none, [.logLine "Starting local auth server",
                .logLine ("Failed to start auth server: " ++ e)])
    else (none, [])

/-- `AuthManager.stop`: best-effort terminate (any exception from
`terminate()`, modelled by `termResult`, is suppressed) and clear the
handle. -/
def stop (proc : Option Proc) (termResult : Except String Unit) : Option Proc :=
  match proc, termResult with
  | none, _ => none
  | some _, _ => none

/-- The success test applied to every `"check-auth-status"` result:
`status_text and "Authenticated" in status_text` on the extracted text,
`False` when the call raised. -/
def reportsAuthenticated : CallResult → Bool
  | .ok resp =>
    let t := contentsToText resp.content
    (!(t == "")) && pyIn "Authenticated" t
  | .exn _ => false

/-- Phase 1 of `ensure_authenticated` (initial status check): whether it
returns immediately, and its events. -/
def phase1 (sess : Session) : Bool × List Event :=
  match sess.checkAuthStatus 0 with
  | .ok resp =>
    let t := contentsToText resp.content
    if (!(t == "")) && pyIn "Authenticated" t then
      (true, [.callTool "check-auth-status",
              .logLine ("Authentication status: " ++ t)])
    else
      (false, [.callTool "check-auth-status",
               .logLine ("Authentication status: " ++
                 (if t == "" then "Unknown/Not authenticated" else t))])
  | .exn e =>
    (false, [.callTool "check-auth-status",
             .logLine ("Warning: check-auth-status failed: " ++ e)])

/-- Phase 3 of `ensure_authenticated` (authenticate trigger, URL
extraction and browser opening), as an event list. -/
def phase3 (cfg : Config) (w : World) (sess : Session) : List Event :=
  match sess.authenticate with
  | .ok resp =>
    let t := contentsToText resp.content
    let base := [Event.callTool "authenticate",
                 Event.logLine ("Authenticate tool response: " ++
                   (if t == "" then "<no text>" else t))]
    match urlSearch t with
    | some url =>
      base ++ [Event.logLine ("Opening authentication URL: " ++ url)] ++
        (if cfg.browser_open then
          match w.browserResult with
          | .ok _ => [Event.openBrowser url]
          | .error e =>
            [Event.openBrowser url,
             Event.logLine ("Could not open browser automatically: " ++ e)]
         else [])
    | none =>
      base ++ [Event.logLine
        "Could not find authentication URL in tool response. Please check the server logs."]
  | .exn e =>
    [Event.callTool "authenticate",
     Event.logLine ("Error calling authenticate tool: " ++ e)]

/-- Outcome of a run: normal return, the raised `TimeoutError`, or (only
when the configured poll interval is non-positive, where the real loop
would spin forever under the negligible-call-time model) divergence. -/
inductive Outcome where
  | authenticated
  | timedOut
  | diverged
deriving DecidableEq

/-- Result of the poll loop: outcome, events, number of poll-loop status
checks performed, and elapsed wall-clock time (sum of interval sleeps)
inside the loop. -/
structure PollResult where
  outcome : Outcome
  trace : List Event
  checks : ℕ
  elapsed : ℚ
deriving DecidableEq

/-- The log line a poll iteration prints for a given status result. -/
def pollLogEvent : CallResult → Event
  | .ok resp =>
    let t := contentsToText resp.content
    if (!(t == "")) && pyIn "Authenticated" t then
      .logLine ("Authentication completed: " ++ t)
    else
      .logLine ("Waiting for authentication... " ++
        (if t == "" then "Not authenticated yet" else t))
  | .exn e => .logLine ("Polling error: " ++ e)

/-- Phase 4 of `ensure_authenticated`: `while time.time() - start < timeout`,
with the body sleeping `P`, re-checking the status (the `n+1`-st check)
and returning on an authenticated report; exceptions are logged and the
loop continues.  `fuel` is a pre-computed recursion bound, large enough
whenever `P > 0`. -/
def pollGo (T P : ℚ) (check : ℕ → CallResult) :
    ℕ → ℕ → ℚ → PollResult
  | 0, n, elapsed =>
    if elapsed < T then ⟨.diverged, [], n, elapsed⟩
    else ⟨.timedOut, [], n, elapsed⟩
  | fuel + 1, n, elapsed =>
    if elapsed < T then
      let r0 := check (n + 1)
      let evs := [Event.pollSleep P, Event.callTool "check-auth-status",
                  pollLogEvent r0]
      if reportsAuthenticated r0 then
        ⟨.authenticated, evs, n + 1, elapsed + P⟩
      else
        let r := pollGo T P check fuel (n + 1) (elapsed + P)
        ⟨r.outcome, evs ++ r.trace, r.checks, r.elapsed⟩
    else ⟨.timedOut, [], n, elapsed⟩

/-- Fuel bound for the poll loop: one more than the number of interval
sleeps that fit in the timeout. -/
def pollFuel (T P : ℚ) : ℕ :=
  (⌈T / P⌉).toNat + 1

/-- Result of a full `ensure_authenticated` run. -/
structure RunResult where
  outcome : Outcome
  trace : List Event
  enteredPoll : Bool
  pollChecks : ℕ
  elapsed : ℚ
  finalProc : Option Proc

/-- `AuthManager.ensure_authenticated`, threaded over the explicit world,
session and helper-process handle.  Phase 1 checks the status and may
return; phase 2 conditionally launches the helper; phase 3 triggers
authentication, extracts a URL and may open the browser; phase 4 polls
until an authenticated status or the timeout. -/
def ensureAuthenticated (cfg : Config) (w : World) (sess : Session)
    (proc : Option Proc) : RunResult :=
  let p1 := phase1 sess
  if p1.1 then ⟨.authenticated, p1.2, false, 0, 0, proc⟩
  else
    let p2 := if cfg.start_auth_server then startAuthServerIfAvailable w proc
              else (proc, [])
    let p3 := phase3 cfg w sess
    let pr := pollGo (cfg.timeout_seconds : ℚ) cfg.poll_interval_seconds
        sess.checkAuthStatus
        (pollFuel (cfg.timeout_seconds : ℚ) cfg.poll_interval_seconds) 0 0
    ⟨pr.outcome, p1.2 ++ p2.2 ++ p3 ++ pr.trace, true, pr.checks, pr.elapsed,
     p2.1⟩

/-- Number of `callTool name` events in a trace. -/
def countCalls (tr : List Event) (name : String) : ℕ :=
  (tr.filter fun ev => decide (ev = Event.callTool name)).length

/-- Whether an event is a helper-process spawn. -/
def isSpawn : Event → Bool
  | .spawnHelper _ => true
  | _ => false

/-- Number of helper-process spawns in a trace. -/
def countSpawns (tr : List Event) : ℕ :=
  (tr.filter isSpawn).length

/-- The extraction rule the claim's words describe: a fragment is kept
only when it has type tag `"text"` and a present text field, for both
shapes.  (The code differs for dict-shaped fragments, which need no text
field.) -/
def claimFragText : Fragment → Option String
  | .attrObj ty tx => if ty = some "text" then tx else none
  | .dictObj ty tx => if ty = some "text" then tx else none

theorem gatherParts_eq (fs : List Fragment) :
    ∀ acc, gatherParts fs acc = acc ++ fs.filterMap fragText := by
  induction fs with
  | nil => intro acc; simp [gatherParts]
  | cons c rest ih =>
    intro acc
    cases h : fragText c <;>
      simp [gatherParts, h, ih, List.filterMap_cons]

theorem contentsToText_some (fs : List Fragment) :
    contentsToText (some fs) = String.intercalate "\n" (fs.filterMap fragText) := by
  simp [contentsToText, gatherParts_eq]

/-- C4, counterexample: on the fragment list
`[dict {type: "text"}, dict {type: "text", text: "a"}]` the code produces
`"\na"` (the text-less dict fragment is kept with text `""`), while the
claim's extraction rule (textual = type tag `"text"` with a text field)
would keep only the second fragment and produce `"a"`. -/
theorem contents_to_text_cex :
    contentsToText (some [Fragment.dictObj (some "text") none,
                          Fragment.dictObj (some "text") (some "a")]) = "\na" ∧
    String.intercalate "\n" (List.filterMap claimFragText
        [Fragment.dictObj (some "text") none,
         Fragment.dictObj (some "text") (some "a")]) = "a" ∧
    ("\na" : String) ≠ "a" := by
  refine ⟨by decide, by decide, by decide⟩

/-- C4, amended: text extraction keeps exactly the fragments `fragText`
identifies as textual — attribute-shaped with type `"text"` and a present
text attribute, or dict-shaped with type `"text"` (text value defaulting
to `""` when the text key is absent) — concatenates their text values in
order with newline separators, and returns `""` on a null or empty
sequence or one with no textual fragment; the claim's example holds for
both shapes. -/
theorem contents_to_text_spec :
    (∀ fs : List Fragment,
        contentsToText (some fs) =
          String.intercalate "\n" (fs.filterMap fragText)) ∧
    contentsToText none = "" ∧
    contentsToText (some []) = "" ∧
    contentsToText (some [Fragment.attrObj (some "text") (some "a"),
                          Fragment.attrObj (some "other") none,
                          Fragment.attrObj (some "text") (some "b")]) = "a\nb" ∧
    contentsToText (some [Fragment.dictObj (some "text") (some "a"),
                          Fragment.dictObj (some "other") none,
                          Fragment.dictObj (some "text") (some "b")]) = "a\nb" ∧
    (∀ fs : List Fragment, (∀ f ∈ fs, fragText f = none) →
        contentsToText (some fs) = "") := by
  refine ⟨contentsToText_some, by decide, by decide, by decide, by decide, ?_⟩
  intro fs h
  rw [contentsToText_some, List.filterMap_eq_nil_iff.2 h]
  rfl

/-- Witness for the hypothesis-bearing part of `contents_to_text_spec`:
a concrete fragment list with no textual fragment extracts to `""`. -/
theorem contents_to_text_spec_witness :
    contentsToText (some [Fragment.attrObj (some "image") (some "x"),
                          Fragment.dictObj none (some "y")]) = "" :=
  contents_to_text_spec.2.2.2.2.2
    [Fragment.attrObj (some "image") (some "x"),
     Fragment.dictObj none (some "y")] (by decide)

theorem envLookup_append (l1 l2 : List (String × String)) (k : String) :
    envLookup (l1 ++ l2) k =
      match envLookup l1 k with
      | some v => some v
      | none => envLookup l2 k := by
  induction l1 with
  | nil => rfl
  | cons a l ih =>
    obtain ⟨k', v⟩ := a
    simp only [List.cons_append, envLookup]
    cases h : (k == k') <;> simp [h, ih]

theorem envLookup_setdefault_self (env : List (String × String)) (k v : String) :
    envLookup (envSetdefault env k v) k = some ((envLookup env k).getD v) := by
  unfold envSetdefault
  cases h : envLookup env k with
  | some w => simp [h]
  | none =>
    simp only [h, Option.isSome_none, Bool.false_eq_true, if_false,
      envLookup_append, Option.getD_none]
    simp [envLookup]

theorem envLookup_setdefault_ne (env : List (String × String)) (k v k' : String)
    (h : k' ≠ k) :
    envLookup (envSetdefault env k v) k' = envLookup env k' := by
  unfold envSetdefault
  split
  · rfl
  · rw [envLookup_append]
    cases hk : envLookup env k' with
    | some w => rfl
    | none => simp [envLookup, h]

theorem helperEnv_lookup_other (env : List (String × String)) (k : String)
    (h1 : k ≠ "MS_CLIENT_ID") (h2 : k ≠ "MS_CLIENT_SECRET") :
    envLookup (helperEnv env) k = envLookup env k := by
  unfold helperEnv
  rw [envLookup_setdefault_ne _ _ _ _ h2, envLookup_setdefault_ne _ _ _ _ h1]

theorem helperEnv_lookup_id (env : List (String × String)) :
    envLookup (helperEnv env) "MS_CLIENT_ID" =
      some ((envLookup env "MS_CLIENT_ID").getD
        ((envLookup env "OUTLOOK_CLIENT_ID").getD "")) := by
  unfold helperEnv
  rw [envLookup_setdefault_ne _ _ _ _ (by decide), envLookup_setdefault_self]
  rfl

theorem helperEnv_lookup_secret (env : List (String × String)) :
    envLookup (helperEnv env) "MS_CLIENT_SECRET" =
      some ((envLookup env "MS_CLIENT_SECRET").getD
        ((envLookup env "OUTLOOK_CLIENT_SECRET").getD "")) := by
  unfold helperEnv
  rw [envLookup_setdefault_self,
    envLookup_setdefault_ne _ _ _ _ (by decide : ("MS_CLIENT_SECRET" : String) ≠ "MS_CLIENT_ID")]
  unfold envGetD
  rw [envLookup_setdefault_ne _ _ _ _ (by decide : ("OUTLOOK_CLIENT_SECRET" : String) ≠ "MS_CLIENT_ID")]

/-- A world in which the helper script exists and spawning succeeds,
with a pre-set `MS_CLIENT_ID` and a source-named secret. -/
def wSpawnOk : World :=
  ⟨[("MS_CLIENT_ID", "keep"), ("OUTLOOK_CLIENT_SECRET", "osec")], true,
   .ok ⟨1⟩, .ok ()⟩

/-- C8: when the helper process is spawned, its environment is the full
inherited environment except that `MS_CLIENT_ID` and `MS_CLIENT_SECRET`
are filled in from `OUTLOOK_CLIENT_ID` and `OUTLOOK_CLIENT_SECRET`
(with `""` fallback) only when the target name is unset; every other
variable, and an already-set target, keeps its inherited value. -/
theorem helper_env_remap (w : World) (p : Proc)
    (hex : w.authServerExists = true) (hsp : w.spawnResult = .ok p) :
    Event.spawnHelper (helperEnv w.env) ∈ (startAuthServerIfAvailable w none).2 ∧
    (∀ k, k ≠ "MS_CLIENT_ID" → k ≠ "MS_CLIENT_SECRET" →
        envLookup (helperEnv w.env) k = envLookup w.env k) ∧
    envLookup (helperEnv w.env) "MS_CLIENT_ID" =
      some ((envLookup w.env "MS_CLIENT_ID").getD
        ((envLookup w.env "OUTLOOK_CLIENT_ID").getD "")) ∧
    envLookup (helperEnv w.env) "MS_CLIENT_SECRET" =
      some ((envLookup w.env "MS_CLIENT_SECRET").getD
        ((envLookup w.env "OUTLOOK_CLIENT_SECRET").getD "")) := by
  refine ⟨?_, helperEnv_lookup_other w.env, helperEnv_lookup_id w.env,
    helperEnv_lookup_secret w.env⟩
  simp [startAuthServerIfAvailable, hex, hsp]

/-- Witness for `helper_env_remap` at a concrete world: the pre-set
target keeps its value and the unset secret is remapped. -/
theorem helper_env_remap_witness :
    Event.spawnHelper (helperEnv wSpawnOk.env) ∈
      (startAuthServerIfAvailable wSpawnOk none).2 ∧
    envLookup (helperEnv wSpawnOk.env) "MS_CLIENT_ID" = some "keep" ∧
    envLookup (helperEnv wSpawnOk.env) "MS_CLIENT_SECRET" = some "osec" := by
  have h := helper_env_remap wSpawnOk ⟨1⟩ rfl rfl
  refine ⟨h.1, ?_, ?_⟩
  · rw [h.2.2.1]; decide
  · rw [h.2.2.2]; decide

/-- C6: helper launch is idempotent, so at most one helper process is
ever live: a launch with a live handle returns immediately with no event;
if a launch from the empty state produced a live handle it spawned
exactly once, and a second launch then spawns nothing; and no single
launch ever spawns more than once. -/
theorem helper_launch_idempotent :
    (∀ (w : World) (p : Proc),
        startAuthServerIfAvailable w (some p) = (some p, [])) ∧
    (∀ (w : World) (st : Option Proc) (tr : List Event),
        startAuthServerIfAvailable w none = (st, tr) → st.isSome = true →
        startAuthServerIfAvailable w st = (st, []) ∧ countSpawns tr = 1) ∧
    (∀ (w : World) (st : Option Proc) (tr : List Event),
        startAuthServerIfAvailable w none = (st, tr) → countSpawns tr ≤ 1) := by
  refine ⟨fun w p => rfl, ?_, ?_⟩
  · intro w st tr h hs
    unfold startAuthServerIfAvailable at h
    cases hex : w.authServerExists with
    | false =>
      rw [hex] at h
      simp at h
      rw [← h.1] at hs
      simp at hs
    | true =>
      rw [hex] at h
      cases hsp : w.spawnResult with
      | ok p =>
        rw [hsp] at h
        simp at h
        rw [← h.1, ← h.2]
        exact ⟨rfl, by simp [countSpawns, isSpawn]⟩
      | error e =>
        rw [hsp] at h
        simp at h
        rw [← h.1] at hs
        simp at hs
  · intro w st tr h
    unfold startAuthServerIfAvailable at h
    cases hex : w.authServerExists with
    | false =>
      rw [hex] at h
      simp at h
      obtain ⟨h1, h2⟩ := h
      subst h2
      simp [countSpawns]
    | true =>
      rw [hex] at h
      cases hsp : w.spawnResult with
      | ok p =>
        rw [hsp] at h
        simp at h
        obtain ⟨h1, h2⟩ := h
        subst h2
        simp [countSpawns, isSpawn]
      | error e =>
        rw [hsp] at h
        simp at h
        obtain ⟨h1, h2⟩ := h
        subst h2
        simp [countSpawns, isSpawn]

/-- Witness for `helper_launch_idempotent`: launching twice in a
successful world leaves the first handle and exactly one spawn. -/
theorem helper_launch_idempotent_witness :
    startAuthServerIfAvailable wSpawnOk
        (startAuthServerIfAvailable wSpawnOk none).1 =
      ((startAuthServerIfAvailable wSpawnOk none).1, []) ∧
    countSpawns (startAuthServerIfAvailable wSpawnOk none).2 = 1 :=
  helper_launch_idempotent.2.1 wSpawnOk
    (startAuthServerIfAvailable wSpawnOk none).1
    (startAuthServerIfAvailable wSpawnOk none).2 rfl (by decide)

/-- C7: `stop` never raises (it is a total function with every
termination failure suppressed) and is idempotent: with no helper it
leaves the state unchanged, with a helper it clears the handle whatever
the termination request returns, and a second call is a no-op. -/
theorem stop_idempotent :
    (∀ r, stop none r = none) ∧
    (∀ (p : Proc) (r : Except String Unit), stop (some p) r = none) ∧
    (∀ (st : Option Proc) (r r' : Except String Unit),
        stop (stop st r) r' = none) := by
  refine ⟨fun r => rfl, fun p r => rfl, fun st r r' => ?_⟩
  cases st <;> rfl

/-- C9, counterexample: the environment string `"False"` is not the
literal `"false"`, yet `START_AUTH_SERVER="False"` resolves to `false`
because the code lowercases before comparing. -/
theorem config_bool_env_cex :
    (mkConfig [("START_AUTH_SERVER", "False")] (some 1) (some 1) none
        none).map Config.start_auth_server = some false ∧
    ("False" : String) ≠ "false" := by
  refine ⟨by decide, by decide⟩

/-- C9, amended: each option takes its explicit constructor argument
when given; when absent it falls back to the environment-derived default
(`"180"` / `"2"` when the numeric variables are unset); and
`START_AUTH_SERVER` / `BROWSER_OPEN` resolve to `true` exactly for
environment strings whose lowercase form is not `"false"`, defaulting to
`true` when unset. -/
theorem config_resolution :
    (∀ (env : List (String × String)) (t : ℤ) (p : ℚ) (sb bb : Bool),
        mkConfig env (some t) (some p) (some sb) (some bb) =
          some ⟨t, p, sb, bb⟩) ∧
    mkConfig [] none none none none = some ⟨180, 2, true, true⟩ ∧
    (∀ (env : List (String × String)) (t : ℤ) (p : ℚ),
        envLookup env "START_AUTH_SERVER" = none →
        (mkConfig env (some t) (some p) none none).map
          Config.start_auth_server = some true) ∧
    (∀ (env : List (String × String)) (t : ℤ) (p : ℚ) (s : String),
        envLookup env "START_AUTH_SERVER" = some s →
        (mkConfig env (some t) (some p) none none).map
          Config.start_auth_server = some (pyLower s != "false")) ∧
    (∀ (env : List (String × String)) (t : ℤ) (p : ℚ),
        envLookup env "BROWSER_OPEN" = none →
        (mkConfig env (some t) (some p) none none).map
          Config.browser_open = some true) ∧
    (∀ (env : List (String × String)) (t : ℤ) (p : ℚ) (s : String),
        envLookup env "BROWSER_OPEN" = some s →
        (mkConfig env (some t) (some p) none none).map
          Config.browser_open = some (pyLower s != "false")) ∧
    (∀ (env : List (String × String)) (p : ℚ) (s : String) (n : ℤ),
        envLookup env "AUTH_TIMEOUT_SECONDS" = some s → pyInt? s = some n →
        (mkConfig env none (some p) none none).map
          Config.timeout_seconds = some n) ∧
    (∀ (env : List (String × String)) (t : ℤ) (s : String) (q : ℚ),
        envLookup env "AUTH_POLL_INTERVAL_SECONDS" = some s →
        pyFloat? s = some q →
        (mkConfig env (some t) none none none).map
          Config.poll_interval_seconds = some q) := by
  refine ⟨fun env t p sb bb => rfl, by decide, ?_, ?_, ?_, ?_, ?_, ?_⟩
  · intro env t p h
    simp [mkConfig, envGetD, h]
    decide
  · intro env t p s h
    simp [mkConfig, envGetD, h]
  · intro env t p h
    simp [mkConfig, envGetD, h]
    decide
  · intro env t p s h
    simp [mkConfig, envGetD, h]
  · intro env p s n h1 h2
    simp [mkConfig, envGetD, h1, h2]
  · intro env t s q h1 h2
    simp [mkConfig, envGetD, h1, h2]

/-- Witness for `config_resolution`: with no `START_AUTH_SERVER` in the
environment the option defaults to `true`. -/
theorem config_resolution_witness :
    (mkConfig [] (some 5) (some 1) none none).map
      Config.start_auth_server = some true :=
  config_resolution.2.2.1 [] 5 1 rfl

theorem phase1_fst (sess : Session) :
    (phase1 sess).1 = reportsAuthenticated (sess.checkAuthStatus 0) := by
  cases h : sess.checkAuthStatus 0 with
  | ok resp =>
    by_cases hc : ((!(contentsToText resp.content == "")) &&
        pyIn "Authenticated" (contentsToText resp.content)) = true
    · simp [phase1, reportsAuthenticated, h, hc]
    · simp only [Bool.not_eq_true] at hc
      simp [phase1, reportsAuthenticated, h, hc]
  | exn e => simp [phase1, reportsAuthenticated, h]

theorem run_initial_auth (cfg : Config) (w : World) (sess : Session)
    (proc : Option Proc)
    (h : reportsAuthenticated (sess.checkAuthStatus 0) = true) :
    ensureAuthenticated cfg w sess proc =
      ⟨.authenticated, (phase1 sess).2, false, 0, 0, proc⟩ := by
  simp only [ensureAuthenticated]
  rw [phase1_fst sess, h]
  simp

theorem run_not_initial_auth (cfg : Config) (w : World) (sess : Session)
    (proc : Option Proc)
    (h : reportsAuthenticated (sess.checkAuthStatus 0) = false) :
    ensureAuthenticated cfg w sess proc =
      ⟨(pollGo (cfg.timeout_seconds : ℚ) cfg.poll_interval_seconds
          sess.checkAuthStatus
          (pollFuel (cfg.timeout_seconds : ℚ) cfg.poll_interval_seconds)
          0 0).outcome,
       (phase1 sess).2 ++
         (if cfg.start_auth_server then startAuthServerIfAvailable w proc
          else (proc, [])).2 ++
         phase3 cfg w sess ++
         (pollGo (cfg.timeout_seconds : ℚ) cfg.poll_interval_seconds
           sess.checkAuthStatus
           (pollFuel (cfg.timeout_seconds : ℚ) cfg.poll_interval_seconds)
           0 0).trace,
       true,
       (pollGo (cfg.timeout_seconds : ℚ) cfg.poll_interval_seconds
         sess.checkAuthStatus
         (pollFuel (cfg.timeout_seconds : ℚ) cfg.poll_interval_seconds)
         0 0).checks,
       (pollGo (cfg.timeout_seconds : ℚ) cfg.poll_interval_seconds
         sess.checkAuthStatus
         (pollFuel (cfg.timeout_seconds : ℚ) cfg.poll_interval_seconds)
         0 0).elapsed,
       (if cfg.start_auth_server then startAuthServerIfAvailable w proc
        else (proc, [])).1⟩ := by
  simp only [ensureAuthenticated]
  rw [phase1_fst sess, h]
  simp

theorem pollGo_nonauth_timedOut (T P : ℚ) (check : ℕ → CallResult)
    (hNA : ∀ n, reportsAuthenticated (check n) = false) :
    ∀ (fuel n : ℕ) (elapsed : ℚ), elapsed < T + P →
      T ≤ elapsed + fuel * P →
      (pollGo T P check fuel n elapsed).outcome = .timedOut ∧
      T ≤ (pollGo T P check fuel n elapsed).elapsed ∧
      (pollGo T P check fuel n elapsed).elapsed < T + P := by
  intro fuel
  induction fuel with
  | zero =>
    intro n elapsed hlt hge
    push_cast at hge
    have hnl : ¬ elapsed < T := not_lt.2 (by linarith)
    simp only [pollGo, hnl, if_false]
    exact ⟨trivial, by linarith, hlt⟩
  | succ fuel ih =>
    intro n elapsed hlt hge
    by_cases hc : elapsed < T
    · have hrec := ih (n + 1) (elapsed + P)
        (by linarith)
        (by push_cast at hge ⊢; linarith)
      simp only [pollGo, hc, if_true, hNA (n + 1), Bool.false_eq_true,
        if_false]
      exact hrec
    · simp only [pollGo, hc, if_false]
      exact ⟨trivial, le_of_not_lt hc, hlt⟩

/-- A world with no helper script and a browser that opens fine. -/
def wNone : World := ⟨[], false, .error "nospawn", .ok ()⟩

/-- A world with the helper script present but a failing spawn. -/
def wSpawnErr : World := ⟨[], true, .error "sboom", .ok ()⟩

/-- A session on which every remote call raises. -/
def sessErr : Session := ⟨fun _ => .exn "cboom", .exn "aboom"⟩

/-- A response whose only fragment is textual and authenticated. -/
def respAuth : ToolResponse :=
  ⟨some [.attrObj (some "text") (some "Authenticated")]⟩

/-- A session whose status checks all report authenticated. -/
def sessAuth : Session := ⟨fun _ => .ok respAuth, .exn "aboom"⟩

/-- The default configuration (timeout 180 s, poll every 2 s). -/
def cfgDef : Config := ⟨180, 2, true, true⟩

/-- A configuration with a negative timeout. -/
def cfgNeg : Config := ⟨-5, 2, false, false⟩

/-- C1, counterexample: with the configured `timeoutSeconds = -5` and
`pollIntervalSeconds = 2` and every status check non-authenticated, the
run raises the timeout with zero elapsed poll time, which is not
`< T + P = -3`: the claimed elapsed-time window is violated for a
negative configured timeout. -/
theorem ensure_timeout_cex :
    (ensureAuthenticated cfgNeg wNone sessErr none).outcome = .timedOut ∧
    (ensureAuthenticated cfgNeg wNone sessErr none).elapsed = 0 ∧
    ¬ ((ensureAuthenticated cfgNeg wNone sessErr none).elapsed <
        (cfgNeg.timeout_seconds : ℚ) + cfgNeg.poll_interval_seconds) := by
  have he : (ensureAuthenticated cfgNeg wNone sessErr none).elapsed = 0 := by
    decide
  refine ⟨by decide, he, ?_⟩
  rw [he]
  norm_num [cfgNeg]

/-- C1, amended: for every configured `timeoutSeconds = T ≥ 0` and
`pollIntervalSeconds = P > 0`, if every status check (initial and
polled) reports a non-authenticated status, `ensure_authenticated`
raises the timeout failure and the elapsed poll-loop time `e` (remote
calls taking negligible time) satisfies `T ≤ e < T + P`, so the loop
never exceeds the timeout by more than one poll interval. -/
theorem ensure_timeout_bounds (cfg : Config) (w : World) (sess : Session)
    (proc : Option Proc) (hT : 0 ≤ cfg.timeout_seconds)
    (hP : 0 < cfg.poll_interval_seconds)
    (hNA : ∀ n, reportsAuthenticated (sess.checkAuthStatus n) = false) :
    (ensureAuthenticated cfg w sess proc).outcome = .timedOut ∧
    (cfg.timeout_seconds : ℚ) ≤ (ensureAuthenticated cfg w sess proc).elapsed ∧
    (ensureAuthenticated cfg w sess proc).elapsed <
      (cfg.timeout_seconds : ℚ) + cfg.poll_interval_seconds := by
  rw [run_not_initial_auth cfg w sess proc (hNA 0)]
  have hT' : (0 : ℚ) ≤ (cfg.timeout_seconds : ℚ) := by exact_mod_cast hT
  have h1 : 0 ≤ ⌈(cfg.timeout_seconds : ℚ) / cfg.poll_interval_seconds⌉ :=
    Int.ceil_nonneg (by positivity)
  have h2 : (((⌈(cfg.timeout_seconds : ℚ) / cfg.poll_interval_seconds⌉.toNat :
      ℕ)) : ℚ) = ((⌈(cfg.timeout_seconds : ℚ) / cfg.poll_interval_seconds⌉ :
      ℤ) : ℚ) := by
    exact_mod_cast Int.toNat_of_nonneg h1
  have hceil : (cfg.timeout_seconds : ℚ) / cfg.poll_interval_seconds ≤
      (⌈(cfg.timeout_seconds : ℚ) / cfg.poll_interval_seconds⌉ : ℚ) :=
    Int.le_ceil _
  have hTP : ((cfg.timeout_seconds : ℚ) / cfg.poll_interval_seconds) *
      cfg.poll_interval_seconds = (cfg.timeout_seconds : ℚ) :=
    div_mul_cancel₀ _ (ne_of_gt hP)
  have hfuel : (cfg.timeout_seconds : ℚ) ≤
      0 + (pollFuel (cfg.timeout_seconds : ℚ) cfg.poll_interval_seconds : ℕ) *
        cfg.poll_interval_seconds := by
    unfold pollFuel
    push_cast
    rw [h2]
    nlinarith [hceil, hTP, hP.le]
  have h := pollGo_nonauth_timedOut (cfg.timeout_seconds : ℚ)
    cfg.poll_interval_seconds sess.checkAuthStatus hNA
    (pollFuel (cfg.timeout_seconds : ℚ) cfg.poll_interval_seconds) 0 0
    (by linarith) hfuel
  exact h

/-- Witness for `ensure_timeout_bounds` at the concrete configuration
`T = 3`, `P = 2` with an always-failing session: the run times out with
elapsed time in `[3, 5)`. -/
theorem ensure_timeout_bounds_witness :
    (ensureAuthenticated ⟨3, 2, false, false⟩ wNone sessErr none).outcome =
        .timedOut ∧
    (((3 : ℤ) : ℚ)) ≤
      (ensureAuthenticated ⟨3, 2, false, false⟩ wNone sessErr none).elapsed ∧
    (ensureAuthenticated ⟨3, 2, false, false⟩ wNone sessErr none).elapsed <
      ((3 : ℤ) : ℚ) + 2 :=
  ensure_timeout_bounds ⟨3, 2, false, false⟩ wNone sessErr none
    (by decide) (by norm_num) (fun n => rfl)

/-- C2: when the initial `"check-auth-status"` response's textual
fragments concatenate to a string containing `"Authenticated"`,
`ensure_authenticated` returns success immediately: no helper spawn, no
`"authenticate"` call, no poll-loop sleep or check, exactly one status
call, and the helper handle is untouched. -/
theorem initial_auth_short_circuit (cfg : Config) (w : World) (sess : Session)
    (proc : Option Proc) (resp : ToolResponse)
    (h1 : sess.checkAuthStatus 0 = .ok resp)
    (h2 : pyIn "Authenticated" (contentsToText resp.content) = true) :
    (ensureAuthenticated cfg w sess proc).outcome = .authenticated ∧
    (ensureAuthenticated cfg w sess proc).enteredPoll = false ∧
    (ensureAuthenticated cfg w sess proc).pollChecks = 0 ∧
    (∀ e, Event.spawnHelper e ∉ (ensureAuthenticated cfg w sess proc).trace) ∧
    Event.callTool "authenticate" ∉ (ensureAuthenticated cfg w sess proc).trace ∧
    (∀ q, Event.pollSleep q ∉ (ensureAuthenticated cfg w sess proc).trace) ∧
    countCalls (ensureAuthenticated cfg w sess proc).trace
      "check-auth-status" = 1 ∧
    (ensureAuthenticated cfg w sess proc).finalProc = proc := by
  have hne : ¬ (contentsToText resp.content == "") = true := by
    intro he
    rw [beq_iff_eq] at he
    rw [he] at h2
    revert h2
    decide
  have hcond : ((!(contentsToText resp.content == "")) &&
      pyIn "Authenticated" (contentsToText resp.content)) = true := by
    simp only [Bool.and_eq_true, Bool.not_eq_true']
    exact ⟨by simpa using hne, h2⟩
  have ht : reportsAuthenticated (sess.checkAuthStatus 0) = true := by
    rw [h1]
    simpa [reportsAuthenticated] using hcond
  rw [run_initial_auth cfg w sess proc ht]
  have hp1 : (phase1 sess).2 = [Event.callTool "check-auth-status",
      Event.logLine ("Authentication status: " ++
        contentsToText resp.content)] := by
    simp [phase1, h1, hcond]
  refine ⟨rfl, rfl, rfl, ?_, ?_, ?_, ?_, rfl⟩
  · intro e
    simp [hp1]
  · simp [hp1]
  · intro q
    simp [hp1]
  · simp [hp1, countCalls]

/-- Witness for `initial_auth_short_circuit`: a concrete authenticated
initial response returns success without calling `"authenticate"`. -/
theorem initial_auth_short_circuit_witness :
    (ensureAuthenticated cfgDef wNone sessAuth none).outcome =
        .authenticated ∧
    Event.callTool "authenticate" ∉
      (ensureAuthenticated cfgDef wNone sessAuth none).trace :=
  ⟨(initial_auth_short_circuit cfgDef wNone sessAuth none respAuth rfl
      (by decide)).1,
   (initial_auth_short_circuit cfgDef wNone sessAuth none respAuth rfl
      (by decide)).2.2.2.2.1⟩

theorem pollLogEvent_log (r : CallResult) : ∃ s, pollLogEvent r = .logLine s := by
  cases r with
  | ok resp =>
    simp only [pollLogEvent]
    split <;> exact ⟨_, rfl⟩
  | exn e => exact ⟨_, rfl⟩

theorem phase1_mem (sess : Session) (ev : Event) (h : ev ∈ (phase1 sess).2) :
    ev = .callTool "check-auth-status" ∨ ∃ s, ev = .logLine s := by
  cases hc : sess.checkAuthStatus 0 with
  | ok resp =>
    simp only [phase1, hc] at h
    split at h <;> simp at h <;> rcases h with rfl | rfl <;>
      simp
  | exn e =>
    simp only [phase1, hc] at h
    simp at h
    rcases h with rfl | rfl <;> simp

theorem startAuth_mem (w : World) (proc : Option Proc) (ev : Event)
    (h : ev ∈ (startAuthServerIfAvailable w proc).2) :
    (∃ s, ev = .logLine s) ∨ (∃ en, ev = .spawnHelper en) ∨
      ev = .settleSleep := by
  cases proc with
  | some p => simp [startAuthServerIfAvailable] at h
  | none =>
    cases hex : w.authServerExists with
    | false => simp [startAuthServerIfAvailable, hex] at h
    | true =>
      cases hsp : w.spawnResult with
      | ok p =>
        simp only [startAuthServerIfAvailable, hex, hsp] at h
        simp at h
        rcases h with rfl | rfl | rfl <;> simp
      | error e =>
        simp only [startAuthServerIfAvailable, hex, hsp] at h
        simp at h
        rcases h with rfl | rfl <;> simp

theorem phase3_mem (cfg : Config) (w : World) (sess : Session) (ev : Event)
    (h : ev ∈ phase3 cfg w sess) :
    ev = .callTool "authenticate" ∨ (∃ s, ev = .logLine s) ∨
      ∃ u, ev = .openBrowser u := by
  cases ha : sess.authenticate with
  | ok resp =>
    simp only [phase3, ha] at h
    cases hu : urlSearch (contentsToText resp.content) with
    | some url =>
      simp only [hu] at h
      by_cases hb : cfg.browser_open = true
      · rw [if_pos hb] at h
        cases hbr : w.browserResult with
        | ok u =>
          rw [hbr] at h
          simp at h
          rcases h with rfl | rfl | rfl | rfl <;> simp
        | error e =>
          rw [hbr] at h
          simp at h
          rcases h with rfl | rfl | rfl | rfl | rfl <;> simp
      · rw [if_neg hb] at h
        simp at h
        rcases h with rfl | rfl | rfl <;> simp
    | none =>
      simp only [hu] at h
      simp at h
      rcases h with rfl | rfl | rfl <;> simp
  | exn e =>
    simp only [phase3, ha] at h
    simp at h
    rcases h with rfl | rfl <;> simp

theorem pollGo_mem (T P : ℚ) (check : ℕ → CallResult) :
    ∀ (fuel n : ℕ) (elapsed : ℚ) (ev : Event),
      ev ∈ (pollGo T P check fuel n elapsed).trace →
      ev = .pollSleep P ∨ ev = .callTool "check-auth-status" ∨
        ∃ s, ev = .logLine s := by
  intro fuel
  induction fuel with
  | zero =>
    intro n elapsed ev h
    simp only [pollGo] at h
    split at h <;> simp at h
  | succ fuel ih =>
    intro n elapsed ev h
    simp only [pollGo] at h
    by_cases hlt : elapsed < T
    · rw [if_pos hlt] at h
      by_cases hr : reportsAuthenticated (check (n + 1)) = true
      · rw [if_pos hr] at h
        simp at h
        rcases h with rfl | rfl | rfl
        · simp
        · simp
        · rcases pollLogEvent_log (check (n + 1)) with ⟨s, hs⟩
          rw [hs]
          simp
      · rw [if_neg hr] at h
        simp only [List.mem_append] at h
        rcases h with h | h
        · simp at h
          rcases h with rfl | rfl | rfl
          · simp
          · simp
          · rcases pollLogEvent_log (check (n + 1)) with ⟨s, hs⟩
            rw [hs]
            simp
        · exact ih (n + 1) (elapsed + P) ev h
    · rw [if_neg hlt] at h
      simp at h

theorem auth_call_phase3 (cfg : Config) (w : World) (sess : Session) :
    Event.callTool "authenticate" ∈ phase3 cfg w sess := by
  cases ha : sess.authenticate with
  | ok resp =>
    simp only [phase3, ha]
    cases hu : urlSearch (contentsToText resp.content) <;> simp [hu]
  | exn e => simp [phase3, ha]

theorem countCalls_append (a b : List Event) (name : String) :
    countCalls (a ++ b) name = countCalls a name + countCalls b name := by
  simp [countCalls, List.filter_append]

theorem countCalls_eq_zero (tr : List Event) (name : String)
    (h : Event.callTool name ∉ tr) : countCalls tr name = 0 := by
  unfold countCalls
  rw [List.length_eq_zero, List.filter_eq_nil_iff]
  intro a ha
  simp only [decide_eq_true_eq]
  intro he
  rw [he] at ha
  exact h ha

theorem countCalls_phase1 (sess : Session) :
    countCalls (phase1 sess).2 "check-auth-status" = 1 := by
  cases hc : sess.checkAuthStatus 0 with
  | ok resp =>
    simp only [phase1, hc]
    split <;> simp [countCalls]
  | exn e =>
    simp [phase1, hc, countCalls]

theorem no_status_call_startAuth (w : World) (proc : Option Proc)
    (name : String) :
    Event.callTool name ∉ (startAuthServerIfAvailable w proc).2 := by
  intro h
  rcases startAuth_mem w proc _ h with ⟨s, hs⟩ | ⟨en, hs⟩ | hs <;>
    simp at hs

theorem no_status_call_phase3 (cfg : Config) (w : World) (sess : Session) :
    Event.callTool "check-auth-status" ∉ phase3 cfg w sess := by
  intro h
  rcases phase3_mem cfg w sess _ h with hs | ⟨s, hs⟩ | ⟨u, hs⟩
  · exact absurd hs (by decide)
  · simp at hs
  · simp at hs

theorem no_pollSleep_phase1 (sess : Session) (q : ℚ) :
    Event.pollSleep q ∉ (phase1 sess).2 := by
  intro h
  rcases phase1_mem sess _ h with hs | ⟨s, hs⟩ <;> simp at hs

theorem no_pollSleep_startAuth (w : World) (proc : Option Proc) (q : ℚ) :
    Event.pollSleep q ∉ (startAuthServerIfAvailable w proc).2 := by
  intro h
  rcases startAuth_mem w proc _ h with ⟨s, hs⟩ | ⟨en, hs⟩ | hs <;>
    simp at hs

theorem no_pollSleep_phase3 (cfg : Config) (w : World) (sess : Session)
    (q : ℚ) : Event.pollSleep q ∉ phase3 cfg w sess := by
  intro h
  rcases phase3_mem cfg w sess _ h with hs | ⟨s, hs⟩ | ⟨u, hs⟩ <;> simp at hs

theorem pollGo_checks_ge (T P : ℚ) (check : ℕ → CallResult) :
    ∀ (fuel n : ℕ) (elapsed : ℚ), n ≤ (pollGo T P check fuel n elapsed).checks := by
  intro fuel
  induction fuel with
  | zero =>
    intro n elapsed
    simp only [pollGo]
    split <;> exact le_refl n
  | succ fuel ih =>
    intro n elapsed
    simp only [pollGo]
    by_cases hlt : elapsed < T
    · rw [if_pos hlt]
      by_cases hr : reportsAuthenticated (check (n + 1)) = true
      · rw [if_pos hr]
        exact Nat.le_succ n
      · rw [if_neg hr]
        exact le_trans (Nat.le_succ n) (ih (n + 1) (elapsed + P))
    · rw [if_neg hlt]

theorem pollGo_checks_pos (T P : ℚ) (check : ℕ → CallResult) (fuel : ℕ)
    (hT : (0 : ℚ) < T) :
    1 ≤ (pollGo T P check (fuel + 1) 0 0).checks := by
  simp only [pollGo]
  rw [if_pos hT]
  by_cases hr : reportsAuthenticated (check (0 + 1)) = true
  · rw [if_pos hr]
  · rw [if_neg hr]
    exact pollGo_checks_ge T P check fuel (0 + 1) (0 + P)

theorem pollGo_err_logged (T P : ℚ) (check : ℕ → CallResult) :
    ∀ (fuel n : ℕ) (elapsed : ℚ) (k : ℕ) (e : String), n < k →
      k ≤ (pollGo T P check fuel n elapsed).checks → check k = .exn e →
      Event.logLine ("Polling error: " ++ e) ∈
        (pollGo T P check fuel n elapsed).trace := by
  intro fuel
  induction fuel with
  | zero =>
    intro n elapsed k e hnk hk hc
    simp only [pollGo] at hk
    by_cases hlt : elapsed < T
    · rw [if_pos hlt] at hk
      dsimp only at hk
      exact absurd hk (by omega)
    · rw [if_neg hlt] at hk
      dsimp only at hk
      exact absurd hk (by omega)
  | succ fuel ih =>
    intro n elapsed k e hnk hk hc
    simp only [pollGo] at hk ⊢
    by_cases hlt : elapsed < T
    · rw [if_pos hlt] at hk ⊢
      by_cases hr : reportsAuthenticated (check (n + 1)) = true
      · rw [if_pos hr] at hk
        have hk1 : k = n + 1 := by
          simp at hk
          omega
        rw [hk1] at hc
        rw [hc] at hr
        simp [reportsAuthenticated] at hr
      · rw [if_neg hr] at hk ⊢
        by_cases hk1 : k = n + 1
        · rw [hk1] at hc
          simp only [List.mem_append, List.mem_cons]
          left
          right
          right
          left
          rw [hc]
          rfl
        · have hlt2 : n + 1 < k := by omega
          have hmem := ih (n + 1) (elapsed + P) k e hlt2 (by simpa using hk) hc
          simp only [List.mem_append]
          right
          exact hmem
    · rw [if_neg hlt] at hk
      dsimp only at hk
      exact absurd hk (by omega)

/-- C10: with a non-positive configured `timeout_seconds`, when the
initial status check does not report authenticated, the run raises the
timeout with zero poll iterations: no poll-phase sleep, exactly one
`"check-auth-status"` call in total, while the earlier phases still run
(the `"authenticate"` call happens, and the helper is spawned when
configured, present and spawnable). -/
theorem nonpositive_timeout_no_poll (cfg : Config) (w : World)
    (sess : Session) (proc : Option Proc) (hT : cfg.timeout_seconds ≤ 0)
    (hNA : reportsAuthenticated (sess.checkAuthStatus 0) = false) :
    (ensureAuthenticated cfg w sess proc).outcome = .timedOut ∧
    (ensureAuthenticated cfg w sess proc).pollChecks = 0 ∧
    (ensureAuthenticated cfg w sess proc).elapsed = 0 ∧
    (∀ q, Event.pollSleep q ∉ (ensureAuthenticated cfg w sess proc).trace) ∧
    countCalls (ensureAuthenticated cfg w sess proc).trace
      "check-auth-status" = 1 ∧
    Event.callTool "authenticate" ∈ (ensureAuthenticated cfg w sess proc).trace ∧
    (∀ p, cfg.start_auth_server = true → proc = none →
      w.authServerExists = true → w.spawnResult = .ok p →
      Event.spawnHelper (helperEnv w.env) ∈
        (ensureAuthenticated cfg w sess proc).trace) := by
  rw [run_not_initial_auth cfg w sess proc hNA]
  have hT' : ¬ ((0 : ℚ) < (cfg.timeout_seconds : ℚ)) := by
    rw [not_lt]
    exact_mod_cast hT
  have hpoll : pollGo (cfg.timeout_seconds : ℚ) cfg.poll_interval_seconds
      sess.checkAuthStatus
      (pollFuel (cfg.timeout_seconds : ℚ) cfg.poll_interval_seconds) 0 0 =
      ⟨.timedOut, [], 0, 0⟩ := by
    unfold pollFuel
    simp only [pollGo]
    rw [if_neg hT']
  rw [hpoll]
  refine ⟨rfl, rfl, rfl, ?_, ?_, ?_, ?_⟩
  · intro q h
    dsimp only at h
    rw [List.append_nil] at h
    rcases List.mem_append.1 h with h | h
    · rcases List.mem_append.1 h with h | h
      · exact no_pollSleep_phase1 sess q h
      · revert h
        split <;> intro h
        · exact no_pollSleep_startAuth w proc q h
        · simp at h
    · exact no_pollSleep_phase3 cfg w sess q h
  · dsimp only
    rw [List.append_nil, countCalls_append, countCalls_append,
      countCalls_phase1,
      countCalls_eq_zero _ _ (no_status_call_phase3 cfg w sess)]
    have h2 : countCalls
        (if cfg.start_auth_server = true then startAuthServerIfAvailable w proc
         else (proc, [])).2 "check-auth-status" = 0 := by
      split
      · exact countCalls_eq_zero _ _ (no_status_call_startAuth w proc _)
      · simp [countCalls]
    rw [h2]
  · dsimp only
    rw [List.append_nil]
    exact List.mem_append.2 (Or.inr (auth_call_phase3 cfg w sess))
  · intro p hs hp hex hsp
    dsimp only
    rw [List.append_nil]
    refine List.mem_append.2 (Or.inl (List.mem_append.2 (Or.inr ?_)))
    rw [if_pos hs, hp]
    simp [startAuthServerIfAvailable, hex, hsp]

/-- Witness for `nonpositive_timeout_no_poll` at `timeout_seconds = 0`
with a spawnable helper: the run times out with no poll activity while
the helper spawn and the `"authenticate"` call still happen. -/
theorem nonpositive_timeout_no_poll_witness :
    (ensureAuthenticated ⟨0, 2, true, true⟩ wSpawnOk sessErr none).outcome =
        .timedOut ∧
    (ensureAuthenticated ⟨0, 2, true, true⟩ wSpawnOk sessErr none).pollChecks
        = 0 ∧
    countCalls (ensureAuthenticated ⟨0, 2, true, true⟩ wSpawnOk sessErr
      none).trace "check-auth-status" = 1 ∧
    Event.callTool "authenticate" ∈
      (ensureAuthenticated ⟨0, 2, true, true⟩ wSpawnOk sessErr none).trace ∧
    Event.spawnHelper (helperEnv wSpawnOk.env) ∈
      (ensureAuthenticated ⟨0, 2, true, true⟩ wSpawnOk sessErr none).trace := by
  have h := nonpositive_timeout_no_poll ⟨0, 2, true, true⟩ wSpawnOk sessErr
    none (by decide) rfl
  exact ⟨h.1, h.2.1, h.2.2.2.2.1, h.2.2.2.2.2.1,
    h.2.2.2.2.2.2 ⟨1⟩ rfl rfl rfl rfl⟩

/-- A response with text but no URL in it. -/
def respNoUrl : ToolResponse := ⟨some [.attrObj (some "text") (some "no link")]⟩

/-- A session whose checks fail and whose authenticate response has no
URL. -/
def sessNoUrl : Session := ⟨fun _ => .exn "cboom", .ok respNoUrl⟩

/-- C5: URL extraction returns the first `https?://`-prefixed maximal
non-whitespace run: on the claim's example it returns exactly
`https://login.example.com/flow?x=1`; when the authenticate-response
text has no match, no browser-open event occurs and the flow still
proceeds to the poll loop. -/
theorem url_extraction (cfg : Config) (w : World) (sess : Session)
    (proc : Option Proc) (resp : ToolResponse)
    (h0 : reportsAuthenticated (sess.checkAuthStatus 0) = false)
    (hA : sess.authenticate = .ok resp)
    (hU : urlSearch (contentsToText resp.content) = none) :
    urlSearch "Visit https://login.example.com/flow?x=1 to continue" =
        some "https://login.example.com/flow?x=1" ∧
    urlSearch "a http://x1 https://y" = some "http://x1" ∧
    urlSearch "no links here" = none ∧
    (∀ u, Event.openBrowser u ∉ (ensureAuthenticated cfg w sess proc).trace) ∧
    (ensureAuthenticated cfg w sess proc).enteredPoll = true := by
  refine ⟨by decide, by decide, by decide, ?_, ?_⟩
  · intro u h
    rw [run_not_initial_auth cfg w sess proc h0] at h
    dsimp only at h
    rcases List.mem_append.1 h with h | h
    · rcases List.mem_append.1 h with h | h
      · rcases List.mem_append.1 h with h | h
        · rcases phase1_mem sess _ h with hs | ⟨s, hs⟩ <;> simp at hs
        · revert h
          split <;> intro h
          · rcases startAuth_mem w proc _ h with ⟨s, hs⟩ | ⟨en, hs⟩ | hs <;>
              simp at hs
          · simp at h
      · simp only [phase3, hA, hU] at h
        simp at h
    · rcases pollGo_mem _ _ _ _ _ _ _ h with hs | hs | ⟨s, hs⟩ <;> simp at hs
  · rw [run_not_initial_auth cfg w sess proc h0]

/-- Witness for `url_extraction`: with a URL-less authenticate response
no browser is opened and the poll loop is entered, and the claim's
example URL is extracted. -/
theorem url_extraction_witness :
    urlSearch "Visit https://login.example.com/flow?x=1 to continue" =
        some "https://login.example.com/flow?x=1" ∧
    Event.openBrowser "https://x" ∉
      (ensureAuthenticated cfgDef wNone sessNoUrl none).trace ∧
    (ensureAuthenticated cfgDef wNone sessNoUrl none).enteredPoll = true := by
  have h := url_extraction cfgDef wNone sessNoUrl none respNoUrl rfl rfl
    (by decide)
  exact ⟨h.1, h.2.2.2.1 "https://x", h.2.2.2.2⟩

/-- C3: every remote-call, helper-launch and browser-open failure inside
`ensure_authenticated` is caught, logged with its message, and the run
proceeds (the next phase and the poll loop still run); the timeout is
the only failure the routine ever signals. -/
theorem nonfatal_errors_logged (cfg : Config) (w : World) (sess : Session)
    (proc : Option Proc) :
    (∀ e, sess.checkAuthStatus 0 = .exn e →
      Event.logLine ("Warning: check-auth-status failed: " ++ e) ∈
          (ensureAuthenticated cfg w sess proc).trace ∧
        Event.callTool "authenticate" ∈
          (ensureAuthenticated cfg w sess proc).trace ∧
        (ensureAuthenticated cfg w sess proc).enteredPoll = true) ∧
    (∀ e, reportsAuthenticated (sess.checkAuthStatus 0) = false →
      sess.authenticate = .exn e →
      Event.logLine ("Error calling authenticate tool: " ++ e) ∈
          (ensureAuthenticated cfg w sess proc).trace ∧
        (ensureAuthenticated cfg w sess proc).enteredPoll = true) ∧
    (∀ e, reportsAuthenticated (sess.checkAuthStatus 0) = false →
      cfg.start_auth_server = true → proc = none →
      w.authServerExists = true → w.spawnResult = .error e →
      Event.logLine ("Failed to start auth server: " ++ e) ∈
          (ensureAuthenticated cfg w sess proc).trace ∧
        (ensureAuthenticated cfg w sess proc).enteredPoll = true) ∧
    (∀ e resp url, reportsAuthenticated (sess.checkAuthStatus 0) = false →
      sess.authenticate = .ok resp →
      urlSearch (contentsToText resp.content) = some url →
      cfg.browser_open = true → w.browserResult = .error e →
      Event.logLine ("Could not open browser automatically: " ++ e) ∈
          (ensureAuthenticated cfg w sess proc).trace ∧
        (ensureAuthenticated cfg w sess proc).enteredPoll = true) ∧
    (∀ k e, reportsAuthenticated (sess.checkAuthStatus 0) = false →
      1 ≤ k → k ≤ (ensureAuthenticated cfg w sess proc).pollChecks →
      sess.checkAuthStatus k = .exn e →
      Event.logLine ("Polling error: " ++ e) ∈
        (ensureAuthenticated cfg w sess proc).trace) := by
  refine ⟨?_, ?_, ?_, ?_, ?_⟩
  · intro e he
    have h0 : reportsAuthenticated (sess.checkAuthStatus 0) = false := by
      rw [he]
      rfl
    rw [run_not_initial_auth cfg w sess proc h0]
    dsimp only
    refine ⟨?_, ?_, rfl⟩
    · refine List.mem_append.2 (Or.inl (List.mem_append.2 (Or.inl
        (List.mem_append.2 (Or.inl ?_)))))
      simp [phase1, he]
    · exact List.mem_append.2 (Or.inl (List.mem_append.2 (Or.inr
        (auth_call_phase3 cfg w sess))))
  · intro e h0 ha
    rw [run_not_initial_auth cfg w sess proc h0]
    dsimp only
    refine ⟨List.mem_append.2 (Or.inl (List.mem_append.2 (Or.inr ?_))), rfl⟩
    simp [phase3, ha]
  · intro e h0 hs hp hex hsp
    rw [run_not_initial_auth cfg w sess proc h0]
    dsimp only
    refine ⟨List.mem_append.2 (Or.inl (List.mem_append.2 (Or.inl
      (List.mem_append.2 (Or.inr ?_))))), rfl⟩
    rw [if_pos hs, hp]
    simp [startAuthServerIfAvailable, hex, hsp]
  · intro e resp url h0 ha hu hb hbr
    rw [run_not_initial_auth cfg w sess proc h0]
    dsimp only
    refine ⟨List.mem_append.2 (Or.inl (List.mem_append.2 (Or.inr ?_))), rfl⟩
    simp [phase3, ha, hu, hb, hbr]
  · intro k e h0 h1k hk hke
    rw [run_not_initial_auth cfg w sess proc h0] at hk ⊢
    dsimp only at hk ⊢
    refine List.mem_append.2 (Or.inr ?_)
    exact pollGo_err_logged _ _ _ _ 0 0 k e (by omega) hk hke

/-- Witness for `nonfatal_errors_logged`: a run where every call fails
and the spawn fails logs each failure and still reaches the timeout. -/
theorem nonfatal_errors_logged_witness :
    Event.logLine "Warning: check-auth-status failed: cboom" ∈
      (ensureAuthenticated ⟨2, 1, true, true⟩ wSpawnErr sessErr none).trace ∧
    Event.logLine "Error calling authenticate tool: aboom" ∈
      (ensureAuthenticated ⟨2, 1, true, true⟩ wSpawnErr sessErr none).trace ∧
    Event.logLine "Failed to start auth server: sboom" ∈
      (ensureAuthenticated ⟨2, 1, true, true⟩ wSpawnErr sessErr none).trace ∧
    Event.logLine "Polling error: cboom" ∈
      (ensureAuthenticated ⟨2, 1, true, true⟩ wSpawnErr sessErr none).trace := by
  have h := nonfatal_errors_logged ⟨2, 1, true, true⟩ wSpawnErr sessErr none
  have hk : 1 ≤ (ensureAuthenticated ⟨2, 1, true, true⟩ wSpawnErr sessErr
      none).pollChecks := by
    rw [run_not_initial_auth ⟨2, 1, true, true⟩ wSpawnErr sessErr none rfl]
    exact pollGo_checks_pos _ _ _ _ (by norm_num)
  exact ⟨(h.1 "cboom" rfl).1, (h.2.1 "aboom" rfl rfl).1,
    (h.2.2.1 "sboom" rfl rfl rfl rfl rfl).1,
    h.2.2.2.2 1 "cboom" rfl (by decide) hk rfl⟩

end OutlookAuth
